import Mathlib

/-!
Verification development for the `etcd-lock` package: a distributed lock on
etcd (`src/index.js`) plus the `etcdlocker` process supervisor
(`src/cmd/etcdlocker.js`) and its IPC heartbeat prober
(`src/cmd/ipcpinger.js`).

The JavaScript source is shallowly embedded: each suspension point of the
async control flow (store reads/writes, watches, timers) becomes an oracle
input, and each `lock()` invocation is a pure function from its oracle to a
trace of the externally visible events it performs, its outcome, and the
updated instance state.  Timer mechanisms (`setInterval` vs. re-armed
`setTimeout`) are modelled by their firing-time semantics.
-/

namespace EtcdLock

/-- The externally visible events one `lock()` invocation can perform, in
order: the initial `get`, the CAS refresh write (`set` with
`prevValue = id`), the creating write (`set` with `prevExist: false`),
emission of the `error`/`LockLostError` notification, arming the
loss-detection watcher (`_onChange`, from the given index), arming the
refresh `setInterval` timer, and opening the one-shot `_watchForUnlock`
watch from the given index. -/
inductive Ev
  | readKey
  | casRefreshWrite
  | createWrite
  | emitLockLost
  | armWatchLoss (fromIdx : Int)
  | armIntervalTimer
  | openUnlockWatch (fromIdx : Int)
deriving DecidableEq, Repr

/-- Is the event a store write?  (`casRefreshWrite` is the refresh `set`
with `prevValue`, `createWrite` the acquiring `set` with `prevExist: false`;
reads, watches and timer arming are not writes.) -/
def Ev.isWrite : Ev → Bool
  | .casRefreshWrite => true
  | .createWrite => true
  | _ => false

/-- Is the event the arming of the loss-detection watcher (`_onChange`)? -/
def Ev.isArmWatch : Ev → Bool
  | .armWatchLoss _ => true
  | _ => false

/-- Result of the initial `this._etcd.getAsync(this._key)` call as the code
observes it: either a node (value and `modifiedIndex`) or an etcd error
code (`100` = key not found; `src/index.js` rethrows any other code). -/
inductive GetResp
  | ok (value : String) (modifiedIndex : Int)
  | err (code : Nat)
deriving DecidableEq, Repr

/-- Result of a `setAsync` call as the code observes it: the written node's
`modifiedIndex` on success, or an etcd error code together with
`e.error.index` (the index reported with error `105`, "key already
exists"). -/
inductive SetResp
  | ok (modifiedIndex : Int)
  | err (code : Nat) (errIndex : Int)
deriving DecidableEq, Repr

/-- The store/network responses one `lock()` invocation may consume: the
initial read, the CAS refresh write's response (consulted only on the
own-value path) and the creating write's response (consulted only on the
create path). -/
structure Oracle where
  get : GetResp
  refreshSet : SetResp
  createSet : SetResp
deriving DecidableEq, Repr

/-- The mutable per-instance state of a `Lock` that the claims depend on:
whether `this._interval` is set, how many `setInterval` timers are live,
how many `_onChange` watchers have been armed and not yet torn down, and
`this._index` (initialised to `-1` by the constructor). -/
structure LockState where
  intervalField : Bool
  liveTimers : Nat
  liveWatches : Nat
  index : Int
deriving DecidableEq, Repr

/-- The state of a freshly constructed `Lock`: no timer, no watcher,
`_index = -1` (`src/index.js` constructor). -/
def LockState.init : LockState :=
  { intervalField := false, liveTimers := 0, liveWatches := 0, index := -1 }

/-- How one `lock()` invocation ends: it returns the held lock, it suspends
on `_watchForUnlock(fromIdx)` and will re-invoke `lock()` when that watch
resolves, or it throws (the etcd error code is recorded). -/
inductive Outcome
  | acquired
  | retryAfterWatch (fromIdx : Int)
  | throwErr (code : Nat)
deriving DecidableEq, Repr

/-- `Lock.prototype._startRefresh` (`src/index.js` lines 104-119): only when
`this._interval` is not set does it arm the `_onChange` loss-detection
watcher from `this._index + 1` and start the refresh `setInterval` timer;
otherwise it does nothing. -/
def startRefresh (s : LockState) : List Ev × LockState :=
  if s.intervalField then ([], s)
  else ([.armWatchLoss (s.index + 1), .armIntervalTimer],
        { s with intervalField := true, liveTimers := s.liveTimers + 1,
                 liveWatches := s.liveWatches + 1 })

/-- `Lock.prototype._stopRefresh` (`src/index.js` lines 96-102): if
`this._interval` is set, `clearInterval` it and null the field.  It does not
touch the `_onChange` watcher. -/
def stopRefresh (s : LockState) : LockState :=
  if s.intervalField then
    { s with intervalField := false, liveTimers := s.liveTimers - 1 }
  else s

/-- The tail of `Lock.prototype.lock` from the comment "no value there, try
to lock" (`src/index.js` lines 179-196): issue the creating write
(`prevExist: false`).  On success record `modifiedIndex` in `this._index`,
call `_startRefresh`, return held.  On error `105` ("key exists") open
`_watchForUnlock(e.error.index + 1)` and re-invoke `lock()` when it
resolves; any other error is rethrown. -/
def createPath (s : LockState) (o : Oracle) : List Ev × Outcome × LockState :=
  match o.createSet with
  | .ok newIdx =>
      let p := startRefresh { s with index := newIdx }
      (.createWrite :: p.1, .acquired, p.2)
  | .err code errIndex =>
      if code = 105 then
        ([.createWrite, .openUnlockWatch (errIndex + 1)],
         .retryAfterWatch (errIndex + 1), s)
      else
        ([.createWrite], .throwErr code, s)

/-- One invocation of `Lock.prototype.lock` (`src/index.js` lines 127-196),
as a function of the instance's own id, its state, and the store responses.
The `getAsync` error handler swallows only code `100` (key not found),
leaving `res = null` so control falls to `createPath`.  If the key holds our
own id, a CAS refresh write is issued; on its success `_index` is updated
and `_startRefresh` runs; on any refresh error the code emits
`LockLostError` and then — there is no early return in the `catch` block —
falls through to `createPath`.  If the key holds a different value, the
invocation suspends on `_watchForUnlock(node.modifiedIndex + 1)`. -/
def lockOnce (id : String) (s : LockState) (o : Oracle) :
    List Ev × Outcome × LockState :=
  match o.get with
  | .err code =>
      if code = 100 then
        let p := createPath s o
        (.readKey :: p.1, p.2.1, p.2.2)
      else
        ([.readKey], .throwErr code, s)
  | .ok v mIdx =>
      if v = id then
        match o.refreshSet with
        | .ok newIdx =>
            let p := startRefresh { s with index := newIdx }
            (.readKey :: .casRefreshWrite :: p.1, .acquired, p.2)
        | .err _ _ =>
            let p := createPath s o
            (.readKey :: .casRefreshWrite :: .emitLockLost :: p.1, p.2.1, p.2.2)
      else
        ([.readKey, .openUnlockWatch (mIdx + 1)],
         .retryAfterWatch (mIdx + 1), s)

/-- The tagged events an etcd watcher delivers for a key, as listened to by
`Lock.prototype._watchForUnlock` (`src/index.js` lines 57-80): release-class
events (`expire`, `delete`, `compareAndDelete`), an overwrite (`set`), or a
watcher error. -/
inductive WatchEv
  | expire
  | del
  | compareAndDelete
  | set
  | error
deriving DecidableEq, Repr

/-- A release-class event in the sense of the store protocol: `delete`,
`expire`, or `compareAndDelete`. -/
def WatchEv.isRelease : WatchEv → Bool
  | .expire => true
  | .del => true
  | .compareAndDelete => true
  | _ => false

/-- Whether the one-shot `_watchForUnlock` promise resolves or rejects. -/
inductive WatchOutcome
  | resolved
  | rejected
deriving DecidableEq, Repr

/-- `Lock.prototype._watchForUnlock` (`src/index.js` lines 57-80): the
promise resolves on the first `expire`, `delete` or `compareAndDelete`
event and rejects on a `set` event (a peer breaking the protocol) or a
watcher error; in every case the watcher is stopped. -/
def watchForUnlock (e : WatchEv) : WatchOutcome :=
  match e with
  | .expire => .resolved
  | .del => .resolved
  | .compareAndDelete => .resolved
  | .set => .rejected
  | .error => .rejected

/-- What the suspended `lock()` call does when its `_watchForUnlock`
promise settles.  The call sites (`src/index.js` lines 175 and 191) are
`this._watchForUnlock(idx).then(this.lock.bind(this))`: a resolution
re-invokes `lock()`, a rejection skips the `then` handler and fails the
waiting `lock()` call. -/
inductive Resume
  | retryLock
  | failAcquire
deriving DecidableEq, Repr

/-- Continuation of the waiting `lock()` call after a watch event. -/
def resumeAfterWatch (e : WatchEv) : Resume :=
  match watchForUnlock e with
  | .resolved => .retryLock
  | .rejected => .failAcquire

/-- The store's `compareAndDelete(key, value)` primitive — the external
Store Client Facade, modelled from its interface contract (spec sections 2
and 6): the conditional delete succeeds and removes the key exactly when
the key exists and its stored value equals the expected value; otherwise
the operation fails (key not found / condition failed) and the key is left
as it was. -/
def storeCompareAndDelete (stored : Option String) (expected : String) :
    Except String (Option String) :=
  match stored with
  | none => .error "key not found"
  | some v =>
      if v = expected then .ok none
      else .error "condition failed"

/-- `Lock.prototype.unlock` (`src/index.js` lines 121-125): first
`_stopRefresh()`, then `compareAndDeleteAsync(this._key, this._id)`.  The
result is the instance state after `_stopRefresh` together with the
conditional delete's result given the currently stored value. -/
def unlock (id : String) (s : LockState) (stored : Option String) :
    LockState × Except String (Option String) :=
  (stopRefresh s, storeCompareAndDelete stored id)

/-- The operations that can act on one `Lock` instance's timer/watcher
state: a `lock()` invocation (with its store oracle), an `unlock()` call,
and a live `_onChange` watcher observing a change to a value that is not
the owner's id (`src/index.js` lines 42-55: the watcher then removes its
listeners, stops itself, and runs its callback, which emits `LockLostError`
only if `this._interval` is still set — it does not stop the interval). -/
inductive LockOp
  | invokeLock (o : Oracle)
  | invokeUnlock
  | lossWatchFires
deriving Repr

/-- Effect of one operation on the instance state. -/
def applyLockOp (id : String) (s : LockState) : LockOp → LockState
  | .invokeLock o => (lockOnce id s o).2.2
  | .invokeUnlock => stopRefresh s
  | .lossWatchFires => { s with liveWatches := s.liveWatches - 1 }

/-- Run a sequence of operations from a state. -/
def runLockOps (id : String) (s : LockState) (ops : List LockOp) : LockState :=
  ops.foldl (applyLockOp id) s

/-- The timer-state invariant of a `Lock` instance: at most one live
refresh timer, and `this._interval` is set exactly when a timer is live. -/
def TimerInv (s : LockState) : Prop :=
  s.liveTimers ≤ 1 ∧ (s.intervalField ↔ s.liveTimers = 1)

instance (s : LockState) : Decidable (TimerInv s) := by
  unfold TimerInv; infer_instance

/-- Firing-time semantics of the refresh timer the code actually installs:
`src/index.js` line 114 uses `setInterval(() => this.lock(), this.refreshInterval)`,
a repeating timer that fires at fixed wall-clock multiples of the interval,
independently of when (or whether) the callback's `lock()` call completes.
`refreshCallStart interval n` is the instant the `n`-th refresh `lock()`
call is started (the timer's `n+1`-st tick). -/
def refreshCallStart (interval : Nat) (n : Nat) : Nat :=
  (n + 1) * interval

/-- The instant the `n`-th refresh `lock()` call completes (its store
response received), given each call's duration. -/
def refreshCallEnd (interval : Nat) (dur : Nat → Nat) (n : Nat) : Nat :=
  refreshCallStart interval n + dur n

/-- The store-write events an invocation trace performs strictly after the
`LockLostError` emission. -/
def writesAfterLost (tr : List Ev) : List Ev :=
  ((tr.dropWhile (fun e => !decide (e = Ev.emitLockLost))).drop 1).filter Ev.isWrite

end EtcdLock

namespace EtcdLocker

/-- The supervisor's runtime state as far as the claims reach: the value of
`process.exitCode` (`none` while unset; an unset code makes the process
exit `0`), how many times the cleanup sequence has been executed, and the
`_.once` guard flag of `runCleanup` (`src/cmd/etcdlocker.js` lines 62-64). -/
structure SupState where
  exitCode : Option Int
  cleanupRuns : Nat
  cleanupDone : Bool
deriving DecidableEq, Repr

/-- Supervisor state at session start: no exit code set, cleanup never run. -/
def SupState.init : SupState :=
  { exitCode := none, cleanupRuns := 0, cleanupDone := false }

/-- `runCleanup` (`src/cmd/etcdlocker.js` lines 62-64): the cleanup sequence
wrapped in `_.once`, so the underlying sequence of cleanup actions executes
only on the first call; later calls are no-ops. -/
def runCleanup (s : SupState) : SupState :=
  if s.cleanupDone then s
  else { s with cleanupDone := true, cleanupRuns := s.cleanupRuns + 1 }

/-- The exit code the process terminates with: `process.exitCode` if one
was assigned, otherwise `0`. -/
def supExitCode (s : SupState) : Int :=
  s.exitCode.getD 0

/-- The termination triggers of the supervisor session
(`src/cmd/etcdlocker.js`), each carrying the data its handler reads:
an OS signal to the supervisor (with the resolved signal number, `0` if
lookup failed), the lock's `error` (lock lost) event, the child process
`error` event, the child `exit` event (exit code, and signal number when
signal-killed), failure to construct the `IPCPinger`, the `IPCPinger`'s
`error` event, and the top-level `co(...).catch` handler. -/
inductive Trigger
  | signal (signum : Nat)
  | lockLost
  | childError
  | childExit (code : Int) (sig : Option Nat)
  | pingerCtorFail
  | pingerError
  | uncaught
deriving DecidableEq, Repr

/-- The handler each trigger runs, as written in `src/cmd/etcdlocker.js`:
every handler calls `runCleanup()` and then exits; the exit-code
assignments performed before `runCleanup()` are, per handler:
signal → `128 + signum` (lines 66-72); lock `error` → `LOCK_LOST = 2`
(lines 159-164); child `error` → `CHILD_ERROR = 3` (lines 208-213); child
`exit` → `128 + signum` if signal-killed else the child's code (lines
215-220); `IPCPinger` construction failure → `IPC_FAIL = 4` (lines
190-196); the `IPCPinger` `error` event handler (lines 200-203) and the
top-level `catch` (lines 224-227) assign no exit code at all. -/
def applyTrigger (s : SupState) : Trigger → SupState
  | .signal signum => runCleanup { s with exitCode := some (128 + signum) }
  | .lockLost => runCleanup { s with exitCode := some 2 }
  | .childError => runCleanup { s with exitCode := some 3 }
  | .childExit code sig =>
      let derived : Int :=
        match sig with
        | some signum => 128 + signum
        | none => code
      runCleanup { s with exitCode := some derived }
  | .pingerCtorFail => runCleanup { s with exitCode := some 4 }
  | .pingerError => runCleanup s
  | .uncaught => runCleanup s

/-- Run a sequence of termination triggers against a supervisor state. -/
def runTriggers (s : SupState) (ts : List Trigger) : SupState :=
  ts.foldl applyTrigger s

end EtcdLocker

namespace IPCPinger

/-- The argument check of the `IPCPinger` constructor
(`src/cmd/ipcpinger.js` lines 16-24): it throws
"pingInterval must be less than maxWait" when `pingInterval > maxWait`
and otherwise constructs normally.  Both arguments are in milliseconds. -/
def ctorCheck (pingInterval maxWait : Nat) : Except String Unit :=
  if pingInterval > maxWait then
    .error "pingInterval must be less than maxWait"
  else .ok ()

end IPCPinger

namespace LockCtor

/-- A JavaScript argument value, as far as the `Lock` constructor's
truthiness test distinguishes them: absent/`undefined`, a string, or an
object (the etcd client). -/
inductive JsArg
  | undef
  | str (s : String)
  | obj
deriving DecidableEq, Repr

/-- JavaScript truthiness of the modelled argument values: `undefined` is
falsy, a string is truthy exactly when non-empty, an object is truthy. -/
def truthy : JsArg → Bool
  | .undef => false
  | .str s => s ≠ ""
  | .obj => true

/-- The value `this.refreshInterval` is initialised to: `(ttl * 1000) / 2`
computed with JavaScript number semantics, so an absent `ttl`
(`undefined`) yields `NaN` and `ttl = 0` yields `0`. -/
inductive RefreshVal
  | nan
  | ms (n : Nat)
deriving DecidableEq, Repr

/-- `(ttl * 1000) / 2` on a possibly-absent `ttl`: `undefined * 1000` is
`NaN` and `NaN / 2` is `NaN`; a number `t` gives `t * 1000 / 2 = t * 500`
exactly. -/
def mkRefreshInterval : Option Nat → RefreshVal
  | none => .nan
  | some t => .ms (t * 1000 / 2)

/-- The fields of a constructed `Lock` the claim reaches. -/
structure LockInit where
  refreshInterval : RefreshVal
  ttl : Option Nat
deriving DecidableEq, Repr

/-- The `Lock` constructor (`src/index.js` lines 10-23): it throws
"Missing constructor argument" iff `!(etcd && key && id)`; `ttl` is not
part of the check and is stored as given, and `this.refreshInterval` is
set to `(ttl * 1000) / 2`. -/
def construct (etcd key id : JsArg) (ttl : Option Nat) :
    Except String LockInit :=
  if truthy etcd && truthy key && truthy id then
    .ok { refreshInterval := mkRefreshInterval ttl, ttl := ttl }
  else
    .error "Missing constructor argument"

/-- Does the constructor throw? -/
def constructThrows (etcd key id : JsArg) (ttl : Option Nat) : Bool :=
  match construct etcd key id ttl with
  | .ok _ => false
  | .error _ => true

end LockCtor

/-- C7: if the one-shot `_watchForUnlock` watch observes a plain `set`
event (the key was overwritten rather than released by
delete/expire/compareAndDelete), the promise rejects and the suspended
`lock()` call fails instead of re-invoking `lock()`. -/
theorem c7_set_event_rejects :
    EtcdLock.watchForUnlock EtcdLock.WatchEv.set = EtcdLock.WatchOutcome.rejected ∧
    EtcdLock.resumeAfterWatch EtcdLock.WatchEv.set = EtcdLock.Resume.failAcquire ∧
    EtcdLock.resumeAfterWatch EtcdLock.WatchEv.set ≠ EtcdLock.Resume.retryLock := by
  refine ⟨rfl, rfl, ?_⟩
  decide

/-- C9: at the failing input `pingInterval = maxWait = 1000` ms the
`IPCPinger` constructor check accepts the arguments, although
`pingInterval < maxWait` is violated there: the guard in the source tests
`pingInterval > maxWait`, letting equality through, contradicting the
code's own error message "pingInterval must be less than maxWait". -/
theorem c9_equal_bounds_accepted :
    IPCPinger.ctorCheck 1000 1000 = Except.ok () ∧ ¬ (1000 < 1000) := by
  exact ⟨rfl, by decide⟩

/-- C4: the supervisor's `IPCPinger` `error`-event handler runs the cleanup
sequence but never assigns `process.exitCode = 4` (`IPC_FAIL`), so from a
session with no exit code yet set the process terminates with code `0`, not
`4`; only the `IPCPinger` construction-failure path assigns `4`.  This
contradicts the program's own exit-code documentation ("4: problem with IPC
pings with Node.js child processes"). -/
theorem c4_pinger_error_exit_code :
    EtcdLocker.supExitCode
        (EtcdLocker.applyTrigger EtcdLocker.SupState.init .pingerError) = 0 ∧
    (EtcdLocker.applyTrigger EtcdLocker.SupState.init .pingerError).cleanupRuns = 1 ∧
    EtcdLocker.supExitCode
        (EtcdLocker.applyTrigger EtcdLocker.SupState.init .pingerCtorFail) = 4 := by
  decide

/-- C10: the `Lock` constructor throws exactly when one of `etcd`, `key`,
`id` is falsy; `ttl` takes no part in the check, so construction succeeds
with `ttl` absent (then `refreshInterval` is `NaN`) or `ttl = 0` (then
`refreshInterval` is `0`). -/
theorem c10_ctor_validates_only_etcd_key_id
    (etcd key id : LockCtor.JsArg) (ttl : Option Nat) :
    (LockCtor.constructThrows etcd key id ttl
       = !(LockCtor.truthy etcd && LockCtor.truthy key && LockCtor.truthy id)) ∧
    LockCtor.construct .obj (.str "k") (.str "i") none
      = .ok { refreshInterval := .nan, ttl := none } ∧
    LockCtor.construct .obj (.str "k") (.str "i") (some 0)
      = .ok { refreshInterval := .ms 0, ttl := some 0 } := by
  refine ⟨?_, rfl, rfl⟩
  by_cases h : (LockCtor.truthy etcd && LockCtor.truthy key && LockCtor.truthy id) = true
  · simp [LockCtor.constructThrows, LockCtor.construct, h]
  · simp only [Bool.not_eq_true] at h
    simp [LockCtor.constructThrows, LockCtor.construct, h]

/-- C1 counterexample: with `refreshIntervalMs = 2` and every refresh
`lock()` call taking 3 time units, the second refresh call starts at time 4
while the first completes at time 5: the `setInterval`-driven refresh loop
starts the next call before the previous one's response has been received,
and the next start time is not "completion plus interval" either. -/
theorem c1_overlap_counterexample :
    EtcdLock.refreshCallStart 2 1 < EtcdLock.refreshCallEnd 2 (fun _ => 3) 0 ∧
    EtcdLock.refreshCallStart 2 1 ≠ EtcdLock.refreshCallEnd 2 (fun _ => 3) 0 + 2 := by
  constructor
  · decide
  · decide

/-- C1 (amended): the refresh loop runs on a repeating `setInterval`, so
refresh `lock()` calls start at a fixed wall-clock cadence of
`refreshIntervalMs` regardless of completion times, and whenever a refresh
call's duration exceeds `refreshIntervalMs` the next refresh call starts
before the previous one has completed. -/
theorem c1_fixed_cadence_overlap (interval : Nat) (dur : Nat → Nat) (n : Nat)
    (h : interval < dur n) :
    EtcdLock.refreshCallStart interval (n + 1)
      = EtcdLock.refreshCallStart interval n + interval ∧
    EtcdLock.refreshCallStart interval (n + 1)
      < EtcdLock.refreshCallEnd interval dur n := by
  constructor
  · show (n + 1 + 1) * interval = (n + 1) * interval + interval
    ring
  · show (n + 1 + 1) * interval < (n + 1) * interval + dur n
    have hexp : (n + 1 + 1) * interval = (n + 1) * interval + interval := by ring
    rw [hexp]
    exact Nat.add_lt_add_left h _

/-- C1 witness: the amended fact at `interval = 2`, `dur = const 3`,
`n = 0`. -/
theorem c1_fixed_cadence_overlap_witness :
    (2 < 3) ∧
    (EtcdLock.refreshCallStart 2 1 = EtcdLock.refreshCallStart 2 0 + 2 ∧
     EtcdLock.refreshCallStart 2 1 < EtcdLock.refreshCallEnd 2 (fun _ => 3) 0) :=
  ⟨by decide, c1_fixed_cadence_overlap 2 (fun _ => 3) 0 (by decide)⟩



/-- C2 counterexample: a held lock (interval live, watcher live, index 5)
whose CAS refresh write fails with etcd error `101` emits `LockLostError`
and then — because the `catch` block has no early return — issues the
creating write (`prevExist: false`) within the same `lock()` invocation:
the store writes performed after the emission are `[createWrite]`, not
none. -/
theorem c2_write_after_lost_counterexample :
    EtcdLock.writesAfterLost
        (EtcdLock.lockOnce "A" ⟨true, 1, 1, 5⟩
          { get := .ok "A" 5, refreshSet := .err 101 0, createSet := .ok 9 }).1
      = [EtcdLock.Ev.createWrite] := by
  decide

/-- C2 (amended): when the key holds this owner's id and the TTL-refresh
CAS write fails, the same `lock()` invocation emits `LockLostError` and
then immediately proceeds to the creating-write path (`prevExist: false`)
— the first four events of its trace are read, CAS refresh write, loss
emission, creating write — and a live refresh interval timer survives the
emission (the instance does not stop writing or refreshing until
`unlock()`). -/
theorem c2_lost_then_create_write (id : String) (s : EtcdLock.LockState)
    (m i : Int) (c : Nat) (cs : EtcdLock.SetResp) :
    ((EtcdLock.lockOnce id s
        { get := .ok id m, refreshSet := .err c i, createSet := cs }).1.take 4
      = [.readKey, .casRefreshWrite, .emitLockLost, .createWrite]) ∧
    (s.intervalField = true →
      ((EtcdLock.lockOnce id s
          { get := .ok id m, refreshSet := .err c i, createSet := cs }).2.2).intervalField
        = true) := by
  cases cs with
  | ok k =>
      constructor
      · by_cases hf : s.intervalField = true <;>
          simp [EtcdLock.lockOnce, EtcdLock.createPath, EtcdLock.startRefresh, hf]
      · intro hf
        simp [EtcdLock.lockOnce, EtcdLock.createPath, EtcdLock.startRefresh, hf]
  | err c2 i2 =>
      by_cases h5 : c2 = 105 <;>
        simp [EtcdLock.lockOnce, EtcdLock.createPath, h5]

/-- C2 witness: the amended fact at the counterexample's concrete input. -/
theorem c2_lost_then_create_write_witness :
    ((EtcdLock.lockOnce "A" ⟨true, 1, 1, 5⟩
        { get := .ok "A" 5, refreshSet := .err 101 0, createSet := .ok 9 }).1.take 4
      = [.readKey, .casRefreshWrite, .emitLockLost, .createWrite]) ∧
    ((EtcdLock.lockOnce "A" ⟨true, 1, 1, 5⟩
        { get := .ok "A" 5, refreshSet := .err 101 0, createSet := .ok 9 }).2.2).intervalField
      = true :=
  ⟨(c2_lost_then_create_write "A" ⟨true, 1, 1, 5⟩ 5 0 101 (.ok 9)).1,
   (c2_lost_then_create_write "A" ⟨true, 1, 1, 5⟩ 5 0 101 (.ok 9)).2 rfl⟩

/-- C3: when the key is absent (get fails with code `100`) and the creating
write fails with code `105` ("key already exists") carrying
`e.error.index = i`, the invocation issues exactly the read, the creating
write, and a one-shot watch from `i + 1`, and suspends to re-invoke
`lock()`; a release-class watch event (delete/expire/compareAndDelete)
resumes with a retry; a creating-write failure with any code other than
`105` is rethrown, as is a read failure with any code other than `100`. -/
theorem c3_creation_race_watch_retry (id : String) (s : EtcdLock.LockState)
    (rs cs : EtcdLock.SetResp) (i j : Int) (c : Nat) (e : EtcdLock.WatchEv)
    (hc100 : c ≠ 100) (hc105 : c ≠ 105) (he : e.isRelease = true) :
    EtcdLock.lockOnce id s
        { get := .err 100, refreshSet := rs, createSet := .err 105 i }
      = ([.readKey, .createWrite, .openUnlockWatch (i + 1)],
         .retryAfterWatch (i + 1), s) ∧
    EtcdLock.resumeAfterWatch e = .retryLock ∧
    (EtcdLock.lockOnce id s
        { get := .err 100, refreshSet := rs, createSet := .err c j }).2.1
      = .throwErr c ∧
    (EtcdLock.lockOnce id s
        { get := .err c, refreshSet := rs, createSet := cs }).2.1
      = .throwErr c := by
  refine ⟨?_, ?_, ?_, ?_⟩
  · simp [EtcdLock.lockOnce, EtcdLock.createPath]
  · cases e <;>
      simp_all [EtcdLock.resumeAfterWatch, EtcdLock.watchForUnlock,
        EtcdLock.WatchEv.isRelease]
  · simp [EtcdLock.lockOnce, EtcdLock.createPath, hc105]
  · simp [EtcdLock.lockOnce, hc100]

/-- C3 witness: the theorem at a concrete input — error code `500`,
conflict index `7`, release event `delete`. -/
theorem c3_creation_race_watch_retry_witness :
    ((500 : Nat) ≠ 100 ∧ (500 : Nat) ≠ 105 ∧
      EtcdLock.WatchEv.del.isRelease = true) ∧
    (EtcdLock.lockOnce "A" EtcdLock.LockState.init
        { get := .err 100, refreshSet := .ok 0, createSet := .err 105 7 }
      = ([.readKey, .createWrite, .openUnlockWatch (7 + 1)],
         .retryAfterWatch (7 + 1), EtcdLock.LockState.init) ∧
     EtcdLock.resumeAfterWatch .del = .retryLock ∧
     (EtcdLock.lockOnce "A" EtcdLock.LockState.init
         { get := .err 100, refreshSet := .ok 0, createSet := .err 500 0 }).2.1
       = .throwErr 500 ∧
     (EtcdLock.lockOnce "A" EtcdLock.LockState.init
         { get := .err 500, refreshSet := .ok 0, createSet := .ok 0 }).2.1
       = .throwErr 500) :=
  ⟨⟨by decide, by decide, rfl⟩,
   c3_creation_race_watch_retry "A" EtcdLock.LockState.init (.ok 0) (.ok 0)
     7 0 500 .del (by decide) (by decide) rfl⟩

/-- C6: `unlock()` clears the refresh interval (stopping both the refresh
timer and, through the `_onChange` callback's `this._interval` guard, loss
emission) and the resulting instance state is exactly `_stopRefresh` of the
old one; the conditional delete then succeeds and removes the key exactly
when the stored value is this owner's id, and yields a rejection
otherwise. -/
theorem c6_unlock_requires_ownership (id : String) (s : EtcdLock.LockState)
    (stored : Option String) :
    (EtcdLock.unlock id s stored).1.intervalField = false ∧
    (EtcdLock.unlock id s stored).1 = EtcdLock.stopRefresh s ∧
    (stored = some id → (EtcdLock.unlock id s stored).2 = Except.ok none) ∧
    (stored ≠ some id →
      ∃ msg, (EtcdLock.unlock id s stored).2 = Except.error msg) := by
  refine ⟨?_, rfl, ?_, ?_⟩
  · by_cases hf : s.intervalField = true <;>
      simp [EtcdLock.unlock, EtcdLock.stopRefresh, hf]
  · rintro rfl
    simp [EtcdLock.unlock, EtcdLock.storeCompareAndDelete]
  · intro hne
    cases stored with
    | none => exact ⟨"key not found", rfl⟩
    | some v =>
        have hv : ¬ (v = id) := fun h => hne (by rw [h])
        exact ⟨"condition failed",
          by simp [EtcdLock.unlock, EtcdLock.storeCompareAndDelete, hv]⟩

/-- C6 witness: owner "A" deleting its own entry succeeds and removes the
key; deleting when the stored value is "B" is rejected. -/
theorem c6_unlock_requires_ownership_witness :
    ((EtcdLock.unlock "A" EtcdLock.LockState.init (some "A")).2
      = Except.ok none) ∧
    ((some "B" : Option String) ≠ some "A" ∧
      ∃ msg, (EtcdLock.unlock "A" EtcdLock.LockState.init (some "B")).2
        = Except.error msg) :=
  ⟨(c6_unlock_requires_ownership "A" EtcdLock.LockState.init (some "A")).2.2.1 rfl,
   ⟨by decide,
    (c6_unlock_requires_ownership "A" EtcdLock.LockState.init (some "B")).2.2.2
      (by decide)⟩⟩

/-- Helper: once the `_.once` guard of `runCleanup` is set, any further
termination trigger leaves the guard set and the run count unchanged. -/
theorem applyTrigger_after_done (s : EtcdLocker.SupState) (t : EtcdLocker.Trigger)
    (h : s.cleanupDone = true) :
    (EtcdLocker.applyTrigger s t).cleanupDone = true ∧
    (EtcdLocker.applyTrigger s t).cleanupRuns = s.cleanupRuns := by
  cases t <;> simp [EtcdLocker.applyTrigger, EtcdLocker.runCleanup, h]

/-- Helper: from a state whose cleanup guard is set, any sequence of
triggers leaves the cleanup run count unchanged. -/
theorem runTriggers_after_done (ts : List EtcdLocker.Trigger)
    (s : EtcdLocker.SupState) (h : s.cleanupDone = true) :
    (EtcdLocker.runTriggers s ts).cleanupRuns = s.cleanupRuns := by
  induction ts generalizing s with
  | nil => rfl
  | cons t ts ih =>
      have hp := applyTrigger_after_done s t h
      calc (EtcdLocker.runTriggers (EtcdLocker.applyTrigger s t) ts).cleanupRuns
          = (EtcdLocker.applyTrigger s t).cleanupRuns := ih _ hp.1
        _ = s.cleanupRuns := hp.2

/-- Helper: the first trigger from a fresh session runs the cleanup
sequence once and sets the guard. -/
theorem applyTrigger_from_fresh (t : EtcdLocker.Trigger) (s : EtcdLocker.SupState)
    (h : s.cleanupDone = false) (h0 : s.cleanupRuns = 0) :
    (EtcdLocker.applyTrigger s t).cleanupDone = true ∧
    (EtcdLocker.applyTrigger s t).cleanupRuns = 1 := by
  cases t <;> simp [EtcdLocker.applyTrigger, EtcdLocker.runCleanup, h, h0]

/-- C8: for every nonempty sequence of termination triggers hitting a fresh
supervisor session — rapid signals, a child exit racing a lock-lost
notification, pinger errors, in any combination and order — the cleanup
sequence executes exactly once: `runCleanup` is wrapped in `_.once`. -/
theorem c8_cleanup_exactly_once (ts : List EtcdLocker.Trigger) (h : ts ≠ []) :
    (EtcdLocker.runTriggers EtcdLocker.SupState.init ts).cleanupRuns = 1 := by
  cases ts with
  | nil => exact absurd rfl h
  | cons t ts =>
      have h1 := applyTrigger_from_fresh t EtcdLocker.SupState.init rfl rfl
      calc (EtcdLocker.runTriggers (EtcdLocker.applyTrigger EtcdLocker.SupState.init t) ts).cleanupRuns
          = (EtcdLocker.applyTrigger EtcdLocker.SupState.init t).cleanupRuns :=
            runTriggers_after_done ts _ h1.1
        _ = 1 := h1.2

/-- C8 witness: two rapid SIGTERM/SIGINT deliveries run cleanup once. -/
theorem c8_cleanup_exactly_once_witness :
    ([EtcdLocker.Trigger.signal 15, EtcdLocker.Trigger.signal 2]
      ≠ ([] : List EtcdLocker.Trigger)) ∧
    (EtcdLocker.runTriggers EtcdLocker.SupState.init
        [EtcdLocker.Trigger.signal 15, EtcdLocker.Trigger.signal 2]).cleanupRuns = 1 :=
  ⟨by decide,
   c8_cleanup_exactly_once [EtcdLocker.Trigger.signal 15, EtcdLocker.Trigger.signal 2]
     (by decide)⟩

/-- Helper: `_startRefresh` preserves the timer invariant. -/
theorem startRefresh_timerInv (s : EtcdLock.LockState) (h : EtcdLock.TimerInv s) :
    EtcdLock.TimerInv (EtcdLock.startRefresh s).2 := by
  obtain ⟨h1, h2⟩ := h
  by_cases hf : s.intervalField = true
  · simp only [EtcdLock.startRefresh, hf, if_true]
    exact ⟨h1, h2⟩
  · have hne : s.liveTimers ≠ 1 := fun he => hf (h2.mpr he)
    have h0 : s.liveTimers = 0 := by omega
    simp [EtcdLock.startRefresh, hf, EtcdLock.TimerInv, h0]

/-- Helper: `_stopRefresh` preserves the timer invariant. -/
theorem stopRefresh_timerInv (s : EtcdLock.LockState) (h : EtcdLock.TimerInv s) :
    EtcdLock.TimerInv (EtcdLock.stopRefresh s) := by
  obtain ⟨h1, h2⟩ := h
  by_cases hf : s.intervalField = true
  · have ht : s.liveTimers = 1 := h2.mp hf
    simp [EtcdLock.stopRefresh, hf, EtcdLock.TimerInv, ht]
  · simp only [EtcdLock.stopRefresh, hf, if_false, Bool.false_eq_true]
    exact ⟨h1, h2⟩

/-- Helper: the creating-write path preserves the timer invariant. -/
theorem createPath_timerInv (s : EtcdLock.LockState) (o : EtcdLock.Oracle)
    (h : EtcdLock.TimerInv s) : EtcdLock.TimerInv (EtcdLock.createPath s o).2.2 := by
  cases hcs : o.createSet with
  | ok k =>
      simp only [EtcdLock.createPath, hcs]
      exact startRefresh_timerInv _ h
  | err c i =>
      by_cases h5 : c = 105 <;> simp [EtcdLock.createPath, hcs, h5] <;> exact h

/-- Helper: one `lock()` invocation preserves the timer invariant. -/
theorem lockOnce_timerInv (id : String) (s : EtcdLock.LockState)
    (o : EtcdLock.Oracle) (h : EtcdLock.TimerInv s) :
    EtcdLock.TimerInv (EtcdLock.lockOnce id s o).2.2 := by
  cases hg : o.get with
  | err c =>
      by_cases h100 : c = 100
      · simp only [EtcdLock.lockOnce, hg, h100, if_true]
        exact createPath_timerInv s o h
      · simp only [EtcdLock.lockOnce, hg, h100, if_false]
        exact h
  | ok v m =>
      by_cases hv : v = id
      · cases hrs : o.refreshSet with
        | ok k =>
            simp only [EtcdLock.lockOnce, hg, hv, if_true, hrs]
            exact startRefresh_timerInv _ h
        | err c i =>
            simp only [EtcdLock.lockOnce, hg, hv, if_true, hrs]
            exact createPath_timerInv s o h
      · simp only [EtcdLock.lockOnce, hg, hv, if_false]
        exact h

/-- Helper: every operation on a `Lock` preserves the timer invariant. -/
theorem applyLockOp_timerInv (id : String) (s : EtcdLock.LockState)
    (op : EtcdLock.LockOp) (h : EtcdLock.TimerInv s) :
    EtcdLock.TimerInv (EtcdLock.applyLockOp id s op) := by
  cases op with
  | invokeLock o => exact lockOnce_timerInv id s o h
  | invokeUnlock => exact stopRefresh_timerInv s h
  | lossWatchFires =>
      simp only [EtcdLock.applyLockOp]
      exact h

/-- Helper: the timer invariant holds along every operation sequence. -/
theorem runLockOps_timerInv (id : String) (s : EtcdLock.LockState)
    (ops : List EtcdLock.LockOp) (h : EtcdLock.TimerInv s) :
    EtcdLock.TimerInv (EtcdLock.runLockOps id s ops) := by
  induction ops generalizing s with
  | nil => exact h
  | cons op ops ih => exact ih _ (applyLockOp_timerInv id s op h)

/-- C5 counterexample: a successful refresh cycle of a held lock (interval
timer live) performs only the read and the CAS refresh write — it arms no
loss-detection watch at all (`_startRefresh`'s body is skipped because
`this._interval` is set), refuting "each refresh cycle re-arms the
loss-detection watch after a successful refresh write". -/
theorem c5_rearm_counterexample :
    (EtcdLock.lockOnce "A" ⟨true, 1, 1, 5⟩
        { get := .ok "A" 5, refreshSet := .ok 7, createSet := .ok 0 }).2.1
      = .acquired ∧
    (EtcdLock.lockOnce "A" ⟨true, 1, 1, 5⟩
        { get := .ok "A" 5, refreshSet := .ok 7, createSet := .ok 0 }).1
      = [.readKey, .casRefreshWrite] ∧
    ((EtcdLock.lockOnce "A" ⟨true, 1, 1, 5⟩
        { get := .ok "A" 5, refreshSet := .ok 7, createSet := .ok 0 }).1.filter
      EtcdLock.Ev.isArmWatch) = [] := by
  decide

/-- C5 (amended): the loss-detection watch is armed only when refresh
starts with no live interval timer (i.e. at acquisition); a successful
refresh cycle of a held lock performs no re-arm and changes nothing but the
recorded index (the watch armed at acquisition simply stays live); the
`this._interval` guard does ensure at most one live refresh timer per Lock
throughout every sequence of lock/unlock/watch-fire operations. -/
theorem c5_watch_once_timer_once (id : String) (s : EtcdLock.LockState)
    (m k : Int) (cs : EtcdLock.SetResp) (ops : List EtcdLock.LockOp)
    (h : s.intervalField = true) :
    (EtcdLock.lockOnce id s
        { get := .ok id m, refreshSet := .ok k, createSet := cs }).1
      = [.readKey, .casRefreshWrite] ∧
    (EtcdLock.lockOnce id s
        { get := .ok id m, refreshSet := .ok k, createSet := cs }).2.2
      = { s with index := k } ∧
    EtcdLock.TimerInv (EtcdLock.runLockOps id EtcdLock.LockState.init ops) := by
  refine ⟨?_, ?_, runLockOps_timerInv id _ ops (by decide)⟩
  · simp [EtcdLock.lockOnce, EtcdLock.startRefresh, h]
  · simp [EtcdLock.lockOnce, EtcdLock.startRefresh, h]

/-- C5 witness: the amended fact at a held lock with index 5, refresh
writing index 7, and the empty operation sequence. -/
theorem c5_watch_once_timer_once_witness :
    ((⟨true, 1, 1, 5⟩ : EtcdLock.LockState).intervalField = true) ∧
    ((EtcdLock.lockOnce "B" ⟨true, 1, 1, 5⟩
        { get := .ok "B" 5, refreshSet := .ok 7, createSet := .ok 0 }).1
      = [.readKey, .casRefreshWrite] ∧
     (EtcdLock.lockOnce "B" ⟨true, 1, 1, 5⟩
        { get := .ok "B" 5, refreshSet := .ok 7, createSet := .ok 0 }).2.2
      = (⟨true, 1, 1, 7⟩ : EtcdLock.LockState) ∧
     EtcdLock.TimerInv (EtcdLock.runLockOps "B" EtcdLock.LockState.init [])) :=
  ⟨rfl, c5_watch_once_timer_once "B" ⟨true, 1, 1, 5⟩ 5 7 (.ok 0) [] rfl⟩
